import Mathlib

/-!
Verification of the data-handling behaviour of the `datasc.py` dashboard
script: a shallow embedding of its dataframe operations (load-time type
coercion, overview metrics, column selection, visualization subset,
groupby aggregation, pie-chart value counts) together with theorems
checking the specified properties.
-/

namespace DataSc

/-- A cell value: missing (`null`, pandas NaN/None), a string, or a number
(numbers modelled as rationals). -/
inductive Val where
  | null : Val
  | str (s : String) : Val
  | num (q : Rat) : Val
deriving DecidableEq, Repr

/-- A pandas column dtype, as far as the script distinguishes them:
`select_dtypes(include=['bool','object'])` picks out `boolean` and
`object`; everything else the script touches is `numeric`. -/
inductive DType where
  | numeric : DType
  | boolean : DType
  | object : DType
deriving DecidableEq, Repr

/-- An in-memory tabular Dataset: ordered column names, their dtypes, and
row-major cell data. -/
structure DataFrame where
  colNames : List String
  colTypes : List DType
  rows : List (List Val)
deriving DecidableEq, Repr

namespace DataFrame

/-- `data.head(n)`: the first `n` rows (all of them when fewer). -/
def head (df : DataFrame) (n : Nat) : DataFrame :=
  { df with rows := df.rows.take n }

/-- Position of column `c`, as pandas label lookup does on the column index. -/
def colIdx (df : DataFrame) (c : String) : Nat :=
  df.colNames.indexOf c

/-- The dtype of column `c`. -/
def dtypeOf (df : DataFrame) (c : String) : DType :=
  df.colTypes.getD (df.colIdx c) DType.object

/-- `data[c]`: the column `c` as a value sequence. -/
def getCol (df : DataFrame) (c : String) : List Val :=
  df.rows.map (fun r => r.getD (df.colIdx c) Val.null)

/-- `data[sel]` for a list `sel` of column labels: pandas keeps the rows
and restricts each to the labels in `sel`, in the order of `sel`. -/
def selectCols (df : DataFrame) (sel : List String) : DataFrame :=
  { colNames := sel
    colTypes := sel.map (fun c => df.dtypeOf c)
    rows := df.rows.map (fun r => sel.map (fun c => r.getD (df.colIdx c) Val.null)) }

end DataFrame

/-- `str(v)` as pandas `astype('str')` applies it cell-wise: a missing value
becomes the literal string "nan" (no longer null), strings stay, numbers
print. -/
def valAsStr : Val → Val
  | Val.null => Val.str "nan"
  | Val.str s => Val.str s
  | Val.num q => Val.str (toString q)

/-- Cell-wise effect of `data[bool_col] = data[bool_col].astype('str')`
(lines 37-38): cells of `boolean`/`object` columns are stringified, cells
of numeric columns are untouched. -/
def convVal (t : DType) (v : Val) : Val :=
  if t = DType.numeric then v else valAsStr v

/-- Column-dtype effect of the same coercion: non-numeric columns become
`object` (string) columns. -/
def convType (t : DType) : DType :=
  if t = DType.numeric then DType.numeric else DType.object

/-- The load-time coercion applied to the whole Dataset right after parsing:
every `boolean`/`object` column is cast to its string representation. -/
def convertBoolObj (df : DataFrame) : DataFrame :=
  { colNames := df.colNames
    colTypes := df.colTypes.map convType
    rows := df.rows.map (fun r => List.zipWith convVal df.colTypes r) }

/-- `data.isnull().sum().sum()` (line 61): the number of null cells in the
frame. -/
def isnullCount (df : DataFrame) : Nat :=
  (df.rows.map (fun r => r.count Val.null)).sum

/-- The number of null cells of `df` that sit in numeric columns. -/
def numericNullCount (df : DataFrame) : Nat :=
  (df.rows.map (fun r =>
    (df.colTypes.zip r).countP
      (fun p => decide (p.1 = DType.numeric) && decide (p.2 = Val.null)))).sum

/-- The missing-value metric the overview actually shows: `isnull` is taken
on the frame after the load-time string coercion. -/
def shownMissing (df : DataFrame) : Nat :=
  isnullCount (convertBoolObj df)

/-- Column-selection display (lines 99-104): no selection shows
`data.head()` (first 5 rows, all columns); otherwise
`data[selected_col].head(num_rows)`. -/
def selectionDisplay (df : DataFrame) (sel : List String) (numRows : Nat) : DataFrame :=
  if sel.isEmpty then df.head 5 else (df.selectCols sel).head numRows

/-- Row-count slider construction (line 100):
`st.slider('...', 5, min(len(data), 100), 10)` = (min, max, default). -/
def sliderSpec (df : DataFrame) : Nat × Nat × Nat :=
  (5, min df.rows.length 100, 10)

/-- The visualization base frame (lines 119-124): the whole Dataset when
"show all data" is checked, otherwise `data.head(1000)`. -/
def vizBase (showAll : Bool) (df : DataFrame) : DataFrame :=
  if showAll then df else df.head 1000

/-- A total order used for pandas `groupby(..., sort=True)` key ordering:
numbers by value, strings lexicographically. -/
def valLE (a b : Val) : Bool :=
  match a, b with
  | Val.null, _ => true
  | _, Val.null => false
  | Val.num p, Val.num q => decide (p ≤ q)
  | Val.num _, Val.str _ => true
  | Val.str _, Val.num _ => false
  | Val.str s, Val.str t => decide (s ≤ t)

/-- `valLE` as a relation, for `List.insertionSort`. -/
def valLEP (a b : Val) : Prop := valLE a b = true

instance : DecidableRel valLEP :=
  fun a b => inferInstanceAs (Decidable (valLE a b = true))

/-- The distinct non-null values of a column, in groupby key order:
pandas `groupby` drops null keys (`dropna=True`) and sorts the remaining
distinct keys (`sort=True`). -/
def groupKeys (xs : List Val) : List Val :=
  List.insertionSort valLEP ((xs.filter (fun v => decide (¬ v = Val.null))).dedup)

/-- The distinct values of a column including nulls (what the claim about
"distinct X-axis values occurring in the subset, including missing" would
require). -/
def distinctWithNull (xs : List Val) : List Val :=
  xs.dedup

/-- The (x, y) cell pairs of the frame, as `groupby(x_axis)[y_axis]` pairs
keys with values row by row. -/
def groupPairs (df : DataFrame) (x y : String) : List (Val × Val) :=
  df.rows.map (fun r => (r.getD (df.colIdx x) Val.null, r.getD (df.colIdx y) Val.null))

/-- The y-values of the group with key `k`. -/
def groupVals (df : DataFrame) (x y : String) (k : Val) : List Val :=
  ((groupPairs df x y).filter (fun p => decide (p.1 = k))).map Prod.snd

/-- Is the value a number? -/
def Val.isNum : Val → Bool
  | Val.num _ => true
  | _ => false

/-- Numeric payload, when present. -/
def Val.toNum : Val → Option Rat
  | Val.num q => some q
  | _ => none

/-- String payload, when present. -/
def Val.toStr : Val → Option String
  | Val.str s => some s
  | _ => none

/-- pandas `Series.sum()` with default `skipna`: nulls are dropped; a
numeric series sums (empty sums to 0), a string series concatenates. -/
def sumVals (vs : List Val) : Val :=
  let nn := vs.filter (fun v => decide (¬ v = Val.null))
  if nn.all Val.isNum then Val.num (nn.filterMap Val.toNum).sum
  else Val.str (String.join (nn.filterMap Val.toStr))

/-- pandas `Series.mean()` with default `skipna`: the mean of the numeric
entries, null when there are none. -/
def meanVals (vs : List Val) : Val :=
  let ns := vs.filterMap Val.toNum
  if ns.isEmpty then Val.null else Val.num (ns.sum / (ns.length : Rat))

/-- `data_viz.groupby(x_axis)[y_axis].agg(...).reset_index()` (lines
148-151): one output row per distinct non-null x key, in key order, the
key paired with the reduced y-values of its group. -/
def groupAgg (red : List Val → Val) (df : DataFrame) (x y : String) : DataFrame :=
  { colNames := [x, y]
    colTypes := [df.dtypeOf x, df.dtypeOf y]
    rows := (groupKeys (df.getCol x)).map (fun k => [k, red (groupVals df x y k)]) }

/-- The three aggregation modes offered by the radio widget. -/
inductive AggMode where
  | raw : AggMode
  | sum : AggMode
  | average : AggMode
deriving DecidableEq, Repr

/-- The radio label of each mode, parsed back (anything else is Raw). -/
def parseAgg (s : String) : AggMode :=
  if s = "Sum" then AggMode.sum
  else if s = "Average" then AggMode.average
  else AggMode.raw

/-- The aggregation radio options (lines 134-139): only "Raw" when the two
axes coincide. -/
def aggOptions (x y : String) : List String :=
  if x = y then ["Raw"] else ["Raw", "Sum", "Average"]

/-- The option the radio can actually return: one of the offered options
(the widget falls back to the first option, "Raw", when the requested
label is not offered). -/
def effectiveChoice (req x y : String) : String :=
  if req ∈ aggOptions x y then req else "Raw"

/-- Lines 147-152: apply the selected aggregation to the visualization
frame; Raw leaves it unchanged. -/
def applyAgg (mode : AggMode) (df : DataFrame) (x y : String) : DataFrame :=
  match mode with
  | AggMode.raw => df
  | AggMode.sum => groupAgg sumVals df x y
  | AggMode.average => groupAgg meanVals df x y

/-- The frame every chart renders from: truncation (lines 119-124) first,
then aggregation (lines 147-152). -/
def chartData (showAll : Bool) (mode : AggMode) (x y : String) (df : DataFrame) : DataFrame :=
  applyAgg mode (vizBase showAll df) x y

/-- Descending-count order on (value, count) pairs, for `value_counts()`. -/
def countGE (a b : Val × Nat) : Prop := b.2 ≤ a.2

instance : DecidableRel countGE :=
  fun a b => inferInstanceAs (Decidable (b.2 ≤ a.2))

instance : IsTotal (Val × Nat) countGE :=
  ⟨fun a b => (Nat.le_total b.2 a.2).imp id id⟩

instance : IsTrans (Val × Nat) countGE :=
  ⟨fun _ _ _ h1 h2 => Nat.le_trans h2 h1⟩

/-- `series.value_counts()`: frequency of each distinct non-null value,
sorted by descending count. -/
def valueCounts (xs : List Val) : List (Val × Nat) :=
  List.insertionSort countGE
    (((xs.filter (fun v => decide (¬ v = Val.null))).dedup).map
      (fun v => (v, (xs.filter (fun v => decide (¬ v = Val.null))).count v)))

/-- Pie-chart slices (line 206): `data_viz[x_axis].value_counts().head(10)`. -/
def pieSlices (df : DataFrame) (x : String) : List (Val × Nat) :=
  (valueCounts (df.getCol x)).take 10

/-- What one render cycle of the script produces after the upload branch:
either the single error path, or the page with its downstream artifacts. -/
inductive RenderOutput where
  | errorPage (detail : String) : RenderOutput
  | page (preview : DataFrame) (rowsMetric colsMetric missingMetric : Nat)
      (selectionView : DataFrame) (chart : DataFrame) : RenderOutput
deriving Repr

/-- One render cycle (lines 28-152): the try-block parses and coerces the
Dataset; any exception there surfaces the error and `st.stop()` halts the
cycle, so no downstream step runs; otherwise every downstream artifact is
derived from the coerced Dataset. -/
def renderCycle (parsed : Except String DataFrame) (sel : List String)
    (numRows : Nat) (showAll : Bool) (req x y : String) : RenderOutput :=
  match parsed.map convertBoolObj with
  | Except.error e => RenderOutput.errorPage e
  | Except.ok data =>
      RenderOutput.page (data.head 5) data.rows.length data.colNames.length
        (isnullCount data) (selectionDisplay data sel numRows)
        (chartData showAll (parseAgg (effectiveChoice req x y)) x y data)

/-! ### Concrete example frames -/

/-- The spec's worked example: columns `[city, sales]`, rows
`[(A,10),(B,20),(A,30)]`. -/
def exCity : DataFrame :=
  { colNames := ["city", "sales"]
    colTypes := [DType.object, DType.numeric]
    rows := [[Val.str "A", Val.num 10], [Val.str "B", Val.num 20], [Val.str "A", Val.num 30]] }

/-- A two-column frame used to exhibit column-order behaviour. -/
def exPair : DataFrame :=
  { colNames := ["a", "b"]
    colTypes := [DType.numeric, DType.numeric]
    rows := [[Val.num 1, Val.num 2], [Val.num 3, Val.num 4]] }

/-- A frame whose single (object) column holds one missing value. -/
def exObjNull : DataFrame :=
  { colNames := ["t"], colTypes := [DType.object], rows := [[Val.null]] }

/-- A frame whose x column holds a missing value. -/
def exNullX : DataFrame :=
  { colNames := ["x", "y"]
    colTypes := [DType.numeric, DType.numeric]
    rows := [[Val.null, Val.num 1]] }

/-! ### Helper lemmas -/

theorem valAsStr_ne_null (v : Val) : ¬ valAsStr v = Val.null := by
  cases v <;> simp [valAsStr]

theorem count_null_convRow (ts : List DType) (r : List Val) :
    (List.zipWith convVal ts r).count Val.null
      = (ts.zip r).countP (fun p => decide (p.1 = DType.numeric) && decide (p.2 = Val.null)) := by
  induction ts generalizing r with
  | nil => simp
  | cons t ts ih =>
    cases r with
    | nil => simp
    | cons v r =>
      simp only [List.zipWith_cons_cons, List.zip_cons_cons, List.count_cons, List.countP_cons,
        ih]
      by_cases ht : t = DType.numeric
      · simp [convVal, ht]
      · simp [convVal, ht, valAsStr_ne_null]

theorem groupKeys_nodup (xs : List Val) : (groupKeys xs).Nodup :=
  (List.perm_insertionSort _ _).nodup_iff.mpr (List.nodup_dedup _)

theorem mem_groupKeys {xs : List Val} {a : Val} :
    a ∈ groupKeys xs ↔ a ∈ xs ∧ ¬ a = Val.null := by
  simp [groupKeys, List.mem_insertionSort, List.mem_dedup, List.mem_filter]

theorem length_groupKeys (xs : List Val) :
    (groupKeys xs).length = ((xs.filter fun v => decide (¬ v = Val.null)).dedup).length :=
  (List.perm_insertionSort _ _).length_eq

theorem getCol_groupAgg (red : List Val → Val) (df : DataFrame) (x y : String) :
    (groupAgg red df x y).getCol x = groupKeys (df.getCol x) := by
  have h : ∀ ks : List Val,
      List.map (fun r => List.getD r 0 Val.null)
        (List.map (fun k => [k, red (groupVals df x y k)]) ks) = ks := by
    intro ks
    induction ks with
    | nil => rfl
    | cons k t ih => simpa using ih
  simpa [DataFrame.getCol, groupAgg, DataFrame.colIdx, List.indexOf_cons_self] using h _

theorem valueCounts_sorted (xs : List Val) : List.Sorted countGE (valueCounts xs) :=
  List.sorted_insertionSort countGE _

theorem mem_valueCounts (xs : List Val) {p : Val × Nat} (h : p ∈ valueCounts xs) :
    p.1 ∈ xs ∧ ¬ p.1 = Val.null
      ∧ p.2 = (xs.filter fun v => decide (¬ v = Val.null)).count p.1 := by
  rw [valueCounts, List.mem_insertionSort] at h
  obtain ⟨v, hv, rfl⟩ := List.mem_map.mp h
  have hmem := List.mem_filter.mp (List.mem_dedup.mp hv)
  exact ⟨hmem.1, by simpa using hmem.2, rfl⟩

theorem length_valueCounts (xs : List Val) :
    (valueCounts xs).length = ((xs.filter fun v => decide (¬ v = Val.null)).dedup).length := by
  rw [valueCounts, (List.perm_insertionSort _ _).length_eq, List.length_map]

/-! ### Claim theorems -/

/-- C1 (counterexample): the column-selection display does NOT show the
selected columns in the Dataset's original column order: selecting
`["b", "a"]` on a frame whose columns are `["a", "b"]` displays the
columns as `["b", "a"]`, the order the user picked them. -/
theorem c1_column_order_counterexample :
    (selectionDisplay exPair ["b", "a"] 5).colNames = ["b", "a"]
    ∧ exPair.colNames = ["a", "b"]
    ∧ ¬ (selectionDisplay exPair ["b", "a"] 5).colNames
        = exPair.colNames.filter (fun c => decide (c ∈ (["b", "a"] : List String))) := by
  have h1 : (selectionDisplay exPair ["b", "a"] 5).colNames = ["b", "a"] := rfl
  have h2 : exPair.colNames.filter (fun c => decide (c ∈ (["b", "a"] : List String)))
      = ["a", "b"] := by with_unfolding_all rfl
  refine ⟨h1, rfl, ?_⟩
  intro h
  rw [h1, h2] at h
  simp at h

/-- C1 (amended): with at least one column selected and slider value `n`,
the column-selection display shows exactly `min n (row count)` rows,
restricted to the selected columns — but in the order the columns were
selected, not the Dataset's original column order. -/
theorem c1_selection_display (df : DataFrame) (sel : List String) (n : Nat)
    (h : ¬ sel = []) :
    (selectionDisplay df sel n).rows.length = min n df.rows.length
    ∧ (selectionDisplay df sel n).colNames = sel := by
  have hne : sel.isEmpty = false := List.isEmpty_eq_false.mpr h
  constructor
  · simp [selectionDisplay, hne, DataFrame.selectCols, DataFrame.head, List.length_take]
  · simp [selectionDisplay, hne, DataFrame.selectCols, DataFrame.head]

/-- Witness for C1 at a concrete frame and selection. -/
theorem c1_selection_display_witness :
    ¬ (["a"] : List String) = []
    ∧ ((selectionDisplay exPair ["a"] 7).rows.length = min 7 exPair.rows.length
        ∧ (selectionDisplay exPair ["a"] 7).colNames = ["a"]) :=
  ⟨by simp, c1_selection_display exPair ["a"] 7 (by simp)⟩

/-- C2 (counterexample): the shown missing-value count does NOT include
nulls sitting in boolean/text columns: a frame whose single object column
holds one null has one null entry in the uploaded table, yet the overview
shows 0, because the load-time `astype('str')` coercion turned the null
into the literal string "nan" before `isnull` ran. -/
theorem c2_missing_count_counterexample :
    shownMissing exObjNull = 0
    ∧ isnullCount exObjNull = 1
    ∧ ¬ shownMissing exObjNull = isnullCount exObjNull := by
  refine ⟨rfl, rfl, ?_⟩
  intro h
  simp [shownMissing, isnullCount, convertBoolObj, convVal, valAsStr, exObjNull] at h

/-- C2 (amended): the missing-value count the overview shows equals the
number of null entries in the numeric columns of the uploaded table;
nulls in boolean/text columns were stringified by the load-time coercion
and are excluded. -/
theorem c2_missing_numeric_only (df : DataFrame) :
    shownMissing df = numericNullCount df := by
  simp only [shownMissing, isnullCount, convertBoolObj, numericNullCount, List.map_map,
    Function.comp_def, count_null_convRow]

/-- C3 (counterexample): the aggregated output does NOT keep one row per
distinct X value when nulls are among them: on a frame whose x column is
`[null]`, Sum aggregation yields 0 rows while there is 1 distinct X value
(the null) occurring in the subset. -/
theorem c3_null_group_counterexample :
    (applyAgg AggMode.sum exNullX "x" "y").rows.length = 0
    ∧ (distinctWithNull (exNullX.getCol "x")).length = 1
    ∧ ¬ (applyAgg AggMode.sum exNullX "x" "y").rows.length
        = (distinctWithNull (exNullX.getCol "x")).length := by
  have h1 : (applyAgg AggMode.sum exNullX "x" "y").rows.length = 0 := by
    with_unfolding_all rfl
  have h2 : (distinctWithNull (exNullX.getCol "x")).length = 1 := by
    with_unfolding_all rfl
  refine ⟨h1, h2, ?_⟩
  intro h
  rw [h1, h2] at h
  exact absurd h (by decide)

/-- C3 (amended): under Sum or Average aggregation the output has exactly
one row per distinct NON-NULL X value occurring in the subset (groupby
drops null keys), each row pairing the key with the sum resp. mean of the
Y values of its group. -/
theorem c3_group_rows (df : DataFrame) (x y : String) (mode : AggMode)
    (h : mode = AggMode.sum ∨ mode = AggMode.average) :
    (applyAgg mode df x y).rows.length
      = (((df.getCol x).filter fun v => decide (¬ v = Val.null)).dedup).length
    ∧ ∀ r ∈ (applyAgg mode df x y).rows,
        ∃ k, k ∈ df.getCol x ∧ ¬ k = Val.null
          ∧ r = [k, (if mode = AggMode.sum then sumVals else meanVals)
                      (groupVals df x y k)] := by
  rcases h with rfl | rfl
  · constructor
    · simpa [applyAgg, groupAgg] using length_groupKeys (df.getCol x)
    · intro r hr
      obtain ⟨k, hk, rfl⟩ := List.mem_map.mp hr
      obtain ⟨hkx, hk0⟩ := mem_groupKeys.mp hk
      exact ⟨k, hkx, hk0, by simp⟩
  · constructor
    · simpa [applyAgg, groupAgg] using length_groupKeys (df.getCol x)
    · intro r hr
      obtain ⟨k, hk, rfl⟩ := List.mem_map.mp hr
      obtain ⟨hkx, hk0⟩ := mem_groupKeys.mp hk
      exact ⟨k, hkx, hk0, by simp⟩

/-- Witness for C3 at the spec's example frame with Sum aggregation. -/
theorem c3_group_rows_witness :
    (AggMode.sum = AggMode.sum ∨ AggMode.sum = AggMode.average)
    ∧ ((applyAgg AggMode.sum exCity "city" "sales").rows.length
        = (((exCity.getCol "city").filter fun v => decide (¬ v = Val.null)).dedup).length
      ∧ ∀ r ∈ (applyAgg AggMode.sum exCity "city" "sales").rows,
          ∃ k, k ∈ exCity.getCol "city" ∧ ¬ k = Val.null
            ∧ r = [k, (if AggMode.sum = AggMode.sum then sumVals else meanVals)
                        (groupVals exCity "city" "sales" k)]) :=
  ⟨Or.inl rfl, c3_group_rows exCity "city" "sales" AggMode.sum (Or.inl rfl)⟩

/-- C4: when the X-axis and Y-axis columns coincide, the offered
aggregation option list is exactly `["Raw"]`, the radio can only yield
"Raw" whatever was requested, and the resulting aggregation leaves the
visualization frame unchanged (no groupby reduction). -/
theorem c4_same_axes_raw (x y req : String) (dv : DataFrame) (h : x = y) :
    aggOptions x y = ["Raw"]
    ∧ effectiveChoice req x y = "Raw"
    ∧ applyAgg (parseAgg (effectiveChoice req x y)) dv x y = dv := by
  subst h
  have hopt : aggOptions x x = ["Raw"] := by simp [aggOptions]
  have heff : effectiveChoice req x x = "Raw" := by
    by_cases hr : req = "Raw"
    · simp [effectiveChoice, hopt, hr]
    · simp [effectiveChoice, hopt, hr]
  exact ⟨hopt, heff, by simp [heff, parseAgg, applyAgg]⟩

/-- Witness for C4 at concrete axes and a concrete requested mode. -/
theorem c4_same_axes_raw_witness :
    ("city" : String) = "city"
    ∧ (aggOptions "city" "city" = ["Raw"]
      ∧ effectiveChoice "Sum" "city" "city" = "Raw"
      ∧ applyAgg (parseAgg (effectiveChoice "Sum" "city" "city")) exCity "city" "city"
          = exCity) :=
  ⟨rfl, c4_same_axes_raw "city" "city" "Sum" exCity rfl⟩

/-- C5: pie-chart slices are the value-frequency counts of the X-axis
column within the visualization frame (the Y-axis is not consulted),
there are at most 10 of them, they are ordered by descending frequency,
and every kept slice is at least as frequent as every dropped value. -/
theorem c5_pie_slices (df : DataFrame) (x : String) :
    (pieSlices df x).length ≤ 10
    ∧ List.Sorted countGE (pieSlices df x)
    ∧ (∀ p ∈ pieSlices df x,
        p.1 ∈ df.getCol x ∧ ¬ p.1 = Val.null
          ∧ p.2 = ((df.getCol x).filter fun v => decide (¬ v = Val.null)).count p.1)
    ∧ ∀ p ∈ pieSlices df x, ∀ q ∈ (valueCounts (df.getCol x)).drop 10, q.2 ≤ p.2 := by
  have hsorted : List.Pairwise countGE (valueCounts (df.getCol x)) := valueCounts_sorted _
  refine ⟨?_, ?_, ?_, ?_⟩
  · simp [pieSlices, List.length_take]
  · exact List.Pairwise.sublist (List.take_sublist 10 _) hsorted
  · intro p hp
    exact mem_valueCounts _ (List.mem_of_mem_take hp)
  · intro p hp q hq
    have happ : List.Pairwise countGE
        ((valueCounts (df.getCol x)).take 10 ++ (valueCounts (df.getCol x)).drop 10) := by
      rwa [List.take_append_drop]
    exact (List.pairwise_append.mp happ).2.2 p hp q hq

/-- Witness for C5: slices of the example frame, with the membership
hypotheses discharged at the slice `(A, 2)`. -/
theorem c5_pie_slices_witness :
    (pieSlices exCity "city").length ≤ 10
    ∧ ((Val.str "A", 2) ∈ pieSlices exCity "city"
      ∧ (Val.str "A" : Val) ∈ exCity.getCol "city"
      ∧ ((Val.str "A", 2) : Val × Nat).2
          = ((exCity.getCol "city").filter fun v => decide (¬ v = Val.null)).count
              (Val.str "A")) := by
  have he : pieSlices exCity "city" = [(Val.str "A", 2), (Val.str "B", 1)] := by
    with_unfolding_all rfl
  have hm : (Val.str "A", 2) ∈ pieSlices exCity "city" := by
    rw [he]
    exact List.mem_cons_self _ _
  have h := (c5_pie_slices exCity "city").2.2.1 (Val.str "A", 2) hm
  exact ⟨(c5_pie_slices exCity "city").1, hm, h.1, h.2.2⟩

/-- C6: on the spec's worked example (columns `[city, sales]`, rows
`[(A,10),(B,20),(A,30)]`), Sum aggregation with X=city, Y=sales yields
exactly `[(A,40),(B,20)]`, and the pie on X=city under Raw yields slices
A and B with counts 2 and 1. -/
theorem c6_city_sales_example :
    (chartData false AggMode.sum "city" "sales" exCity).rows
      = [[Val.str "A", Val.num 40], [Val.str "B", Val.num 20]]
    ∧ pieSlices (chartData false AggMode.raw "city" "sales" exCity) "city"
      = [(Val.str "A", 2), (Val.str "B", 1)] := by
  constructor
  · with_unfolding_all rfl
  · with_unfolding_all rfl

/-- C7: when parsing the uploaded file raises, the render cycle produces
exactly the error page carrying the exception detail, and no page with
downstream artifacts (preview, metrics, selection view, chart) is
produced — the cycle halts. -/
theorem c7_parse_error_halts (e : String) (sel : List String) (numRows : Nat)
    (showAll : Bool) (req x y : String) :
    renderCycle (Except.error e) sel numRows showAll req x y = RenderOutput.errorPage e
    ∧ ∀ pv rm cm mm sv ch,
        ¬ renderCycle (Except.error e) sel numRows showAll req x y
            = RenderOutput.page pv rm cm mm sv ch := by
  refine ⟨rfl, ?_⟩
  intro pv rm cm mm sv ch hcontra
  rw [show renderCycle (Except.error e) sel numRows showAll req x y
      = RenderOutput.errorPage e from rfl] at hcontra
  exact RenderOutput.noConfusion hcontra

/-- C8: the visualization base frame is the full Dataset when "show all
data" is on and exactly its first 1000 rows when off (all rows when there
are fewer), and every chart's data is obtained by applying the
aggregation to that already-truncated frame. -/
theorem c8_viz_subset (df : DataFrame) (showAll : Bool) (mode : AggMode) (x y : String) :
    vizBase true df = df
    ∧ (vizBase false df).rows = df.rows.take 1000
    ∧ (vizBase false df).rows.length = min 1000 df.rows.length
    ∧ chartData showAll mode x y df = applyAgg mode (vizBase showAll df) x y := by
  refine ⟨rfl, rfl, ?_, rfl⟩
  simp [vizBase, DataFrame.head, List.length_take]

/-- C9: when Sum or Average aggregation is in effect, the pie chart's
value counts run over the aggregated frame, whose X column lists each
group key exactly once — so every slice has frequency 1, and the number
of slices is min 10 (number of distinct non-null X values). -/
theorem c9_pie_after_agg (dv : DataFrame) (x y : String) (mode : AggMode)
    (h : mode = AggMode.sum ∨ mode = AggMode.average) :
    (∀ p ∈ pieSlices (applyAgg mode dv x y) x, p.2 = 1)
    ∧ (pieSlices (applyAgg mode dv x y) x).length
        = min 10 (((dv.getCol x).filter fun v => decide (¬ v = Val.null)).dedup).length := by
  have hcol : (applyAgg mode dv x y).getCol x = groupKeys (dv.getCol x) := by
    rcases h with rfl | rfl
    · exact getCol_groupAgg sumVals dv x y
    · exact getCol_groupAgg meanVals dv x y
  have hnodup : (groupKeys (dv.getCol x)).Nodup := groupKeys_nodup _
  have hfilter : ((groupKeys (dv.getCol x)).filter fun v => decide (¬ v = Val.null))
      = groupKeys (dv.getCol x) :=
    List.filter_eq_self.mpr (fun a ha => by simpa using (mem_groupKeys.mp ha).2)
  constructor
  · intro p hp
    have hvc := mem_valueCounts ((applyAgg mode dv x y).getCol x)
      (List.mem_of_mem_take hp)
    rw [hcol] at hvc
    rw [hfilter] at hvc
    exact hvc.2.2.trans (List.count_eq_one_of_mem hnodup hvc.1)
  · have hlen : (valueCounts ((applyAgg mode dv x y).getCol x)).length
        = (groupKeys (dv.getCol x)).length := by
      rw [hcol, length_valueCounts, hfilter, List.dedup_eq_self.mpr hnodup]
    simp [pieSlices, List.length_take, hlen, length_groupKeys]

/-- Witness for C9: the example frame aggregated with Sum, the slice
hypothesis discharged at `(A, 1)`. -/
theorem c9_pie_after_agg_witness :
    (AggMode.sum = AggMode.sum ∨ AggMode.sum = AggMode.average)
    ∧ (Val.str "A", 1) ∈ pieSlices (applyAgg AggMode.sum exCity "city" "sales") "city"
    ∧ ((Val.str "A", 1) : Val × Nat).2 = 1
    ∧ (pieSlices (applyAgg AggMode.sum exCity "city" "sales") "city").length
        = min 10 (((exCity.getCol "city").filter fun v => decide (¬ v = Val.null)).dedup).length := by
  have he : pieSlices (applyAgg AggMode.sum exCity "city" "sales") "city"
      = [(Val.str "A", 1), (Val.str "B", 1)] := by
    with_unfolding_all rfl
  have hm : (Val.str "A", 1) ∈ pieSlices (applyAgg AggMode.sum exCity "city" "sales") "city" := by
    rw [he]
    exact List.mem_cons_self _ _
  refine ⟨Or.inl rfl, hm, ?_, ?_⟩
  · exact (c9_pie_after_agg exCity "city" "sales" AggMode.sum (Or.inl rfl)).1 _ hm
  · exact (c9_pie_after_agg exCity "city" "sales" AggMode.sum (Or.inl rfl)).2

/-- C10: the row-count slider is constructed with minimum 5 and maximum
min(row count, 100), so its bounds are well-formed (minimum ≤ maximum)
exactly when the Dataset has at least 5 rows. -/
theorem c10_slider_bounds (df : DataFrame) :
    (sliderSpec df).1 ≤ (sliderSpec df).2.1 ↔ 5 ≤ df.rows.length := by
  simp only [sliderSpec]
  omega

end DataSc
